import Mathlib

/-!
Verification development for the workflow-plugin-authz repository.

The repository wraps a Casbin enforcer in a `CasbinModule` (src/unnamed/part_003),
persists rules through an in-memory, file, or GORM adapter (src/unnamed/part_000),
and exposes pipeline steps (src/internal/step_authz_check.go, src/unnamed/part_002,
src/internal/step_authz_add_policy.go).

Embedding notes:
- The Casbin matching engine is an external library; it is embedded at the
  granularity the module uses it: an `EngineState` holds the policy rows of the
  "p" kind, the grouping rows of the "g" kind, and the matcher compiled from
  the model text.  `enforceEngine` implements the effect expression
  `some(where (p.eft == allow))` used throughout this repository (README model,
  test models): the request is allowed iff at least one policy row satisfies
  the matcher.  Role relations influence the decision through the groupings
  argument of the matcher, exactly as the `g(...)` predicate does.
- External I/O (file reads, database opens) is abstracted by a `StoreEnv`
  passed to `CasbinModule.Init`; model-text parsing is abstracted by a
  `parse` function argument.  A result that does not depend on the
  environment is a result produced before any store access.
- The adapter `SavePolicy` outcome is abstracted by a `SaveOracle`; a `none`
  result is a successful full-replace persistence of the engine rule set.
-/

/-- A policy or grouping row: an ordered tuple of strings. -/
abbrev Rule := List String

/-- Lower-casing of a string, character by character (the Go strings.ToLower
calls on ASCII adapter-type and driver names). -/
def toLowerStr (s : String) : String := String.mk (s.data.map Char.toLower)

/-- The matcher compiled from the model text.  Arguments: the current grouping
rows, the request fields (subject, object, action), and one candidate policy
row; the result tells whether the row satisfies the matcher for the request. -/
abbrev Matcher := List Rule → String → String → String → Rule → Bool

/-- The in-memory state of the Casbin matching engine owned by a module:
the compiled matcher together with the "p" policy rows and "g" grouping rows. -/
structure EngineState where
  matcher : Matcher
  policies : List Rule
  groupings : List Rule

/-- Engine-level Enforce: evaluates the matcher against every policy row and
combines the per-row results through the effect expression
`some(where (p.eft == allow))`, i.e. at least one row must match. -/
def enforceEngine (e : EngineState) (sub obj act : String) : Bool :=
  e.policies.any (fun row => e.matcher e.groupings sub obj act row)

/-- Engine-level AddPolicy: returns whether the rule set changed; a rule that
is already present is not added again (duplicate detection of the engine). -/
def engineAddPolicy (e : EngineState) (rule : Rule) : Bool × EngineState :=
  if e.policies.contains rule then (false, e)
  else (true, { e with policies := e.policies ++ [rule] })

/-- Engine-level RemovePolicy: removes the stored occurrence of the rule and
returns whether the rule set changed (false when the rule was absent). -/
def engineRemovePolicy (e : EngineState) (rule : Rule) : Bool × EngineState :=
  if e.policies.contains rule then (true, { e with policies := e.policies.erase rule })
  else (false, e)

/-- Engine-level AddGroupingPolicy on the "g" rows. -/
def engineAddGroupingPolicy (e : EngineState) (rule : Rule) : Bool × EngineState :=
  if e.groupings.contains rule then (false, e)
  else (true, { e with groupings := e.groupings ++ [rule] })

/-- Engine-level RemoveGroupingPolicy on the "g" rows. -/
def engineRemoveGroupingPolicy (e : EngineState) (rule : Rule) : Bool × EngineState :=
  if e.groupings.contains rule then (true, { e with groupings := e.groupings.erase rule })
  else (false, e)

/-- Adapter configuration (src/unnamed/part_003 `adapterConfig`). -/
structure adapterConfig where
  typ : String
  path : String
  driver : String
  dsn : String
  tableName : String

/-- Watcher configuration (src/unnamed/part_003 `watcherConfig`); the interval
is a duration in nanoseconds. -/
structure watcherConfig where
  typ : String
  interval : Int

/-- Parsed module configuration (src/unnamed/part_003 `casbinConfig`). -/
structure casbinConfig where
  model : String
  policies : List Rule
  roleAssignments : List Rule
  adapter : adapterConfig
  watcher : watcherConfig

/-- Contents of a policy store: the "p" rows and the "g" rows it holds. -/
structure StoredRules where
  policies : List Rule
  groupings : List Rule
deriving DecidableEq

/-- The enforcement module (src/unnamed/part_003 `CasbinModule`): a name, the
parsed configuration, the optional enforcer, and the current contents of the
backing store (the adapter). -/
structure CasbinModule where
  name : String
  config : casbinConfig
  enforcer : Option EngineState
  stored : StoredRules

/-- External-world oracle for `Init`: contents delivered by the file adapter
for a path, and contents delivered by opening, migrating and reading a GORM
database for a (driver family, dsn) pair.  An `Except.error` models an I/O
failure. -/
structure StoreEnv where
  readFile : String → Except String StoredRules
  openGorm : String → String → Except String StoredRules

/-- Rules loaded while building the adapter (src/unnamed/part_003
`buildAdapter` and `buildGORMAdapter`).  The memory adapter serves the inline
configuration rows; the file and GORM adapters consult the environment.  The
DSN check and the driver switch of `buildGORMAdapter` run before any store
access, which is why their errors do not depend on `env`. -/
def CasbinModule.buildAdapterRules (env : StoreEnv) (m : CasbinModule) :
    Except String StoredRules :=
  let t := toLowerStr m.config.adapter.typ
  if t = "" ∨ t = "memory" then .ok ⟨m.config.policies, m.config.roleAssignments⟩
  else if t = "file" then
    if m.config.adapter.path = "" then
      .error ("authz.casbin " ++ m.name ++ ": adapter.path is required for file adapter")
    else env.readFile m.config.adapter.path
  else if t = "gorm" then
    if m.config.adapter.dsn = "" then
      .error ("authz.casbin " ++ m.name ++ ": adapter.dsn is required for gorm adapter")
    else
      let d := toLowerStr m.config.adapter.driver
      if d = "postgres" ∨ d = "postgresql" then env.openGorm "postgres" m.config.adapter.dsn
      else if d = "mysql" then env.openGorm "mysql" m.config.adapter.dsn
      else if d = "sqlite3" ∨ d = "sqlite" then env.openGorm "sqlite" m.config.adapter.dsn
      else
        .error ("authz.casbin " ++ m.name ++ ": unsupported gorm driver "
          ++ m.config.adapter.driver ++ " (supported: postgres, mysql, sqlite3)")
  else .error ("authz.casbin " ++ m.name ++ ": unknown adapter type " ++ m.config.adapter.typ)

/-- Init (src/unnamed/part_003 `CasbinModule.Init`): parse the model, build the
adapter, construct a fresh enforcer loaded with the rules held by the adapter.
On success the previous enforcer and policy set are fully replaced; on error
the module is left unchanged. -/
def CasbinModule.Init (parse : String → Except String Matcher) (env : StoreEnv)
    (m : CasbinModule) : Except String CasbinModule :=
  match parse m.config.model with
  | .error e => .error ("authz.casbin " ++ m.name ++ ": parse model: " ++ e)
  | .ok matc =>
    match m.buildAdapterRules env with
    | .error e => .error e
    | .ok rules =>
      .ok { m with enforcer := some ⟨matc, rules.policies, rules.groupings⟩, stored := rules }

/-- Enforce (src/unnamed/part_003 `CasbinModule.Enforce`): fails when the
module was never initialized, otherwise delegates to the engine. -/
def CasbinModule.Enforce (m : CasbinModule) (sub obj act : String) : Except String Bool :=
  match m.enforcer with
  | none => .error ("authz.casbin " ++ m.name ++ ": enforcer not initialized")
  | some e => .ok (enforceEngine e sub obj act)

/-- Outcome of the adapter SavePolicy call for a given engine state: `none`
is success, `some err` is a persistence failure with that error. -/
abbrev SaveOracle := EngineState → Option String

/-- The full rule set of an engine, as persisted by a successful SavePolicy
(full-replace semantics). -/
def fullRuleSet (e : EngineState) : StoredRules := ⟨e.policies, e.groupings⟩

/-- AddPolicy (src/unnamed/part_003 `CasbinModule.AddPolicy`): engine mutation
first; only when the engine reports a change is SavePolicy invoked, and a
persistence failure is returned instead of success.  The pair carries the Go
return value and the module state afterwards (the in-memory engine keeps the
mutation even when persistence fails). -/
def CasbinModule.AddPolicy (save : SaveOracle) (m : CasbinModule) (rule : Rule) :
    Except String Bool × CasbinModule :=
  match m.enforcer with
  | none => (.error ("authz.casbin " ++ m.name ++ ": enforcer not initialized"), m)
  | some e =>
    let r := engineAddPolicy e rule
    let m2 := { m with enforcer := some r.2 }
    if r.1 then
      match save r.2 with
      | some err => (.error err, m2)
      | none => (.ok true, { m2 with stored := fullRuleSet r.2 })
    else (.ok false, m2)

/-- RemovePolicy (src/unnamed/part_003 `CasbinModule.RemovePolicy`). -/
def CasbinModule.RemovePolicy (save : SaveOracle) (m : CasbinModule) (rule : Rule) :
    Except String Bool × CasbinModule :=
  match m.enforcer with
  | none => (.error ("authz.casbin " ++ m.name ++ ": enforcer not initialized"), m)
  | some e =>
    let r := engineRemovePolicy e rule
    let m2 := { m with enforcer := some r.2 }
    if r.1 then
      match save r.2 with
      | some err => (.error err, m2)
      | none => (.ok true, { m2 with stored := fullRuleSet r.2 })
    else (.ok false, m2)

/-- AddGroupingPolicy (src/unnamed/part_003 `CasbinModule.AddGroupingPolicy`). -/
def CasbinModule.AddGroupingPolicy (save : SaveOracle) (m : CasbinModule) (rule : Rule) :
    Except String Bool × CasbinModule :=
  match m.enforcer with
  | none => (.error ("authz.casbin " ++ m.name ++ ": enforcer not initialized"), m)
  | some e =>
    let r := engineAddGroupingPolicy e rule
    let m2 := { m with enforcer := some r.2 }
    if r.1 then
      match save r.2 with
      | some err => (.error err, m2)
      | none => (.ok true, { m2 with stored := fullRuleSet r.2 })
    else (.ok false, m2)

/-- RemoveGroupingPolicy (src/unnamed/part_003 `CasbinModule.RemoveGroupingPolicy`). -/
def CasbinModule.RemoveGroupingPolicy (save : SaveOracle) (m : CasbinModule) (rule : Rule) :
    Except String Bool × CasbinModule :=
  match m.enforcer with
  | none => (.error ("authz.casbin " ++ m.name ++ ": enforcer not initialized"), m)
  | some e =>
    let r := engineRemoveGroupingPolicy e rule
    let m2 := { m with enforcer := some r.2 }
    if r.1 then
      match save r.2 with
      | some err => (.error err, m2)
      | none => (.ok true, { m2 with stored := fullRuleSet r.2 })
    else (.ok false, m2)

/-- Exact-equality RBAC matcher of the repository test model
`g(r.sub, p.sub) && r.obj == p.obj && r.act == p.act`, with the `g` predicate
holding for identity or a direct grouping row. -/
def exactMatcher : Matcher := fun groupings sub obj act row =>
  match row with
  | [psub, pobj, pact] =>
    (sub == psub || groupings.contains [sub, psub]) && obj == pobj && act == pact
  | _ => false

/-- Wildcard-action RBAC matcher of the README model: like `exactMatcher` but
a policy action `*` matches any request action. -/
def wildcardMatcher : Matcher := fun groupings sub obj act row =>
  match row with
  | [psub, pobj, pact] =>
    (sub == psub || groupings.contains [sub, psub]) && obj == pobj
      && (act == pact || pact == "*")
  | _ => false

/-- Sample adapter/watcher/config values for concrete witnesses. -/
def memAdapterCfg : adapterConfig := ⟨"memory", "", "", "", ""⟩

def noWatcherCfg : watcherConfig := ⟨"none", 0⟩

def sampleConfig (policies roleAssignments : List Rule) : casbinConfig :=
  ⟨"[model text]", policies, roleAssignments, memAdapterCfg, noWatcherCfg⟩

/-- A save oracle that always succeeds (the in-memory adapter of
src/unnamed/part_003 never fails to save). -/
def saveOk : SaveOracle := fun _ => none

/-- C1 witness module: initialized, one policy row, one grouping row,
exact matcher. -/
def mC1 : CasbinModule :=
  { name := "authz"
  , config := sampleConfig [["admin", "/api/posts", "GET"]] [["alice", "admin"]]
  , enforcer := some ⟨exactMatcher, [["admin", "/api/posts", "GET"]], [["alice", "admin"]]⟩
  , stored := ⟨[["admin", "/api/posts", "GET"]], [["alice", "admin"]]⟩ }

/-- C1: for a valid, initialized module, a query for which no policy row (given
the current role relations) satisfies any matcher clause yields `Enforce`
returning false with no error: a no-match decision is a deny outcome, never an
error. -/
theorem C1_no_match_is_deny_not_error (m : CasbinModule) (e : EngineState)
    (sub obj act : String)
    (hinit : m.enforcer = some e)
    (hnomatch : ∀ row ∈ e.policies, e.matcher e.groupings sub obj act row = false) :
    m.Enforce sub obj act = .ok false := by
  unfold CasbinModule.Enforce
  rw [hinit]
  simp only [Except.ok.injEq]
  unfold enforceEngine
  rw [List.any_eq_false]
  intro row hrow
  simp [hnomatch row hrow]

/-- C1 witness: the concrete initialized module `mC1` denies the query
(carol, /api/posts, DELETE) without an error, via `C1_no_match_is_deny_not_error`. -/
theorem C1_no_match_is_deny_not_error_witness :
    mC1.Enforce "carol" "/api/posts" "DELETE" = .ok false :=
  C1_no_match_is_deny_not_error mC1 ⟨exactMatcher, [["admin", "/api/posts", "GET"]], [["alice", "admin"]]⟩
    "carol" "/api/posts" "DELETE" rfl (by decide)

/-- Boolean success test on `Except`. -/
def exceptIsOk {ε α : Type} : Except ε α → Bool
  | .ok _ => true
  | .error _ => false

/-- Helper: `Init` reads a module only through its name and its configuration,
so two modules agreeing on both (whatever their current enforcer or store
contents) are initialized to the same result: re-initialization fully replaces
the internal engine and policy set. -/
theorem init_depends_only_on_name_and_config (parse : String → Except String Matcher)
    (env : StoreEnv) (m m' : CasbinModule)
    (hn : m'.name = m.name) (hc : m'.config = m.config) :
    CasbinModule.Init parse env m' = CasbinModule.Init parse env m := by
  unfold CasbinModule.Init CasbinModule.buildAdapterRules
  rw [hn, hc]

/-- Sample environment whose stores are empty and always readable. -/
def envEmptyStores : StoreEnv :=
  ⟨fun _ => .ok ⟨[], []⟩, fun _ _ => .ok ⟨[], []⟩⟩

/-- Sample parse function: every model text compiles to the exact matcher. -/
def parseExact : String → Except String Matcher := fun _ => .ok exactMatcher

/-- C3 witness module before initialization. -/
def mC3 : CasbinModule :=
  { name := "authz"
  , config := sampleConfig [["admin", "/api", "GET"]] [["alice", "admin"]]
  , enforcer := none
  , stored := ⟨[], []⟩ }

/-- C3 witness module after one `Init`. -/
def mC3' : CasbinModule :=
  { mC3 with
    enforcer := some ⟨exactMatcher, [["admin", "/api", "GET"]], [["alice", "admin"]]⟩
  , stored := ⟨[["admin", "/api", "GET"]], [["alice", "admin"]]⟩ }

/-- C3: if `Init` succeeds, running `Init` again on the same configuration is
not an error, fully replaces the engine and policy set (the result does not
depend on the state the module was left in), and yields a module with
identical `Enforce` results on every fixed query. -/
theorem C3_reinit_idempotent (parse : String → Except String Matcher) (env : StoreEnv)
    (m m1 : CasbinModule)
    (h : CasbinModule.Init parse env m = .ok m1) :
    CasbinModule.Init parse env m1 = .ok m1
    ∧ (∀ m' : CasbinModule, m'.name = m.name → m'.config = m.config →
        CasbinModule.Init parse env m' = .ok m1)
    ∧ (∀ m2 : CasbinModule, CasbinModule.Init parse env m1 = .ok m2 →
        ∀ sub obj act, m2.Enforce sub obj act = m1.Enforce sub obj act) := by
  have hrepl : ∀ m' : CasbinModule, m'.name = m.name → m'.config = m.config →
      CasbinModule.Init parse env m' = .ok m1 := by
    intro m' hn hc
    rw [init_depends_only_on_name_and_config parse env m m' hn hc]
    exact h
  have hname : m1.name = m.name ∧ m1.config = m.config := by
    unfold CasbinModule.Init at h
    cases hp : parse m.config.model with
    | error e => rw [hp] at h; exact absurd h (by simp)
    | ok matc =>
      rw [hp] at h
      cases hb : m.buildAdapterRules env with
      | error e => rw [hb] at h; exact absurd h (by simp)
      | ok rules =>
        rw [hb] at h
        simp only [Except.ok.injEq] at h
        subst h
        exact ⟨rfl, rfl⟩
  have hagain : CasbinModule.Init parse env m1 = .ok m1 := hrepl m1 hname.1 hname.2
  refine ⟨hagain, hrepl, ?_⟩
  intro m2 h2 sub obj act
  rw [hagain] at h2
  simp only [Except.ok.injEq] at h2
  rw [h2]

/-- C3 witness: initializing the concrete module `mC3` once yields `mC3'`, and
`C3_reinit_idempotent` then gives that a second `Init` returns exactly `mC3'`
again with unchanged `Enforce` results on a sample query. -/
theorem C3_reinit_idempotent_witness :
    CasbinModule.Init parseExact envEmptyStores mC3' = .ok mC3'
    ∧ mC3'.Enforce "alice" "/api" "GET" = mC3'.Enforce "alice" "/api" "GET" :=
  ⟨(C3_reinit_idempotent parseExact envEmptyStores mC3 mC3' rfl).1,
   (C3_reinit_idempotent parseExact envEmptyStores mC3 mC3' rfl).2.2 mC3'
     (C3_reinit_idempotent parseExact envEmptyStores mC3 mC3' rfl).1 "alice" "/api" "GET"⟩

/-- C9 counterexample module: relational adapter, driver name "postgresql",
which is outside the set named by the claim yet accepted by the code. -/
def mC9pg : CasbinModule :=
  { name := "authz"
  , config := ⟨"[model text]", [], [], ⟨"gorm", "", "postgresql", "host=db", ""⟩, noWatcherCfg⟩
  , enforcer := none
  , stored := ⟨[], []⟩ }

/-- C9 counterexample: with driver name "postgresql" — outside the supported
set (postgres, mysql, sqlite3) named by the claim — initialization does not
fail with a configuration error: it proceeds to the store and, with a
reachable database, succeeds.  The claim as stated is therefore false. -/
theorem C9_counterexample_postgresql_driver_accepted :
    ("postgresql" ∉ (["postgres", "mysql", "sqlite3"] : List String))
    ∧ exceptIsOk (CasbinModule.Init parseExact envEmptyStores mC9pg) = true := by
  constructor
  · decide
  · rfl

/-- C9 witness module: relational adapter with an unsupported driver name. -/
def mC9 : CasbinModule :=
  { name := "authz"
  , config := ⟨"[model text]", [], [], ⟨"gorm", "", "oracle", "host=db", ""⟩, noWatcherCfg⟩
  , enforcer := none
  , stored := ⟨[], []⟩ }

/-- C9 (amended): for a module configured with the relational (gorm) adapter,
a non-empty DSN, a parseable model, and a driver name whose lower-case form is
outside the supported set (postgres, postgresql, mysql, sqlite3, sqlite),
`Init` fails with the unsupported-driver configuration error for every store
environment — i.e. before any store access — and the enforcer of the module
remains uninitialized, so a subsequent `Enforce` fails with the
not-initialized error. -/
theorem C9_unsupported_driver_fails_before_store (parse : String → Except String Matcher)
    (env : StoreEnv) (m : CasbinModule) (matc : Matcher) (sub obj act : String)
    (hpar : parse m.config.model = .ok matc)
    (htyp : toLowerStr m.config.adapter.typ = "gorm")
    (hdsn : m.config.adapter.dsn ≠ "")
    (hdrv : toLowerStr m.config.adapter.driver ∉
      (["postgres", "postgresql", "mysql", "sqlite3", "sqlite"] : List String))
    (hinit : m.enforcer = none) :
    CasbinModule.Init parse env m =
      .error ("authz.casbin " ++ m.name ++ ": unsupported gorm driver "
        ++ m.config.adapter.driver ++ " (supported: postgres, mysql, sqlite3)")
    ∧ m.Enforce sub obj act =
      .error ("authz.casbin " ++ m.name ++ ": enforcer not initialized") := by
  simp only [List.mem_cons, List.not_mem_nil, or_false, not_or] at hdrv
  obtain ⟨h1, h2, h3, h4, h5⟩ := hdrv
  constructor
  · unfold CasbinModule.Init
    rw [hpar]
    unfold CasbinModule.buildAdapterRules
    simp only [htyp]
    simp [hdsn, h1, h2, h3, h4, h5]
  · unfold CasbinModule.Enforce
    rw [hinit]

/-- C9 witness: the concrete module `mC9` (driver "oracle") is rejected by
`Init` under every environment with the unsupported-driver error, and its
`Enforce` keeps failing with the not-initialized error, via
`C9_unsupported_driver_fails_before_store`. -/
theorem C9_unsupported_driver_fails_before_store_witness :
    CasbinModule.Init parseExact envEmptyStores mC9 =
      .error "authz.casbin authz: unsupported gorm driver oracle (supported: postgres, mysql, sqlite3)"
    ∧ mC9.Enforce "alice" "/api" "GET" =
      .error "authz.casbin authz: enforcer not initialized" :=
  C9_unsupported_driver_fails_before_store parseExact envEmptyStores mC9 exactMatcher
    "alice" "/api" "GET" rfl rfl (by decide) (by decide) rfl

/-- C4: for each of the four mutation operations on an initialized module,
the full current rule set is persisted to the store exactly when the engine
mutation changed state, and a persistence failure is surfaced as the returned
error instead of a success report.  For every operation three facts hold:
(a) change and successful save: the operation reports true and the store now
holds the full current rule set; (b) change and failing save: the operation
returns the persistence error, the store keeps its previous contents and the
in-memory engine keeps the mutation (the accepted divergence); (c) no change:
the operation reports false, the store is untouched, and the outcome is the
same for every save oracle — persistence is never attempted. -/
theorem C4_persist_iff_changed (m : CasbinModule) (e : EngineState) (rule : Rule)
    (save : SaveOracle) (hinit : m.enforcer = some e) :
    (((engineAddPolicy e rule).1 = true → save (engineAddPolicy e rule).2 = none →
        m.AddPolicy save rule =
          (.ok true, { m with enforcer := some (engineAddPolicy e rule).2,
                              stored := fullRuleSet (engineAddPolicy e rule).2 }))
      ∧ (∀ err, (engineAddPolicy e rule).1 = true →
          save (engineAddPolicy e rule).2 = some err →
          m.AddPolicy save rule =
            (.error err, { m with enforcer := some (engineAddPolicy e rule).2 }))
      ∧ ((engineAddPolicy e rule).1 = false → ∀ save2 : SaveOracle,
          m.AddPolicy save2 rule =
            (.ok false, { m with enforcer := some (engineAddPolicy e rule).2 })))
    ∧ (((engineRemovePolicy e rule).1 = true → save (engineRemovePolicy e rule).2 = none →
        m.RemovePolicy save rule =
          (.ok true, { m with enforcer := some (engineRemovePolicy e rule).2,
                              stored := fullRuleSet (engineRemovePolicy e rule).2 }))
      ∧ (∀ err, (engineRemovePolicy e rule).1 = true →
          save (engineRemovePolicy e rule).2 = some err →
          m.RemovePolicy save rule =
            (.error err, { m with enforcer := some (engineRemovePolicy e rule).2 }))
      ∧ ((engineRemovePolicy e rule).1 = false → ∀ save2 : SaveOracle,
          m.RemovePolicy save2 rule =
            (.ok false, { m with enforcer := some (engineRemovePolicy e rule).2 })))
    ∧ (((engineAddGroupingPolicy e rule).1 = true →
        save (engineAddGroupingPolicy e rule).2 = none →
        m.AddGroupingPolicy save rule =
          (.ok true, { m with enforcer := some (engineAddGroupingPolicy e rule).2,
                              stored := fullRuleSet (engineAddGroupingPolicy e rule).2 }))
      ∧ (∀ err, (engineAddGroupingPolicy e rule).1 = true →
          save (engineAddGroupingPolicy e rule).2 = some err →
          m.AddGroupingPolicy save rule =
            (.error err, { m with enforcer := some (engineAddGroupingPolicy e rule).2 }))
      ∧ ((engineAddGroupingPolicy e rule).1 = false → ∀ save2 : SaveOracle,
          m.AddGroupingPolicy save2 rule =
            (.ok false, { m with enforcer := some (engineAddGroupingPolicy e rule).2 })))
    ∧ (((engineRemoveGroupingPolicy e rule).1 = true →
        save (engineRemoveGroupingPolicy e rule).2 = none →
        m.RemoveGroupingPolicy save rule =
          (.ok true, { m with enforcer := some (engineRemoveGroupingPolicy e rule).2,
                              stored := fullRuleSet (engineRemoveGroupingPolicy e rule).2 }))
      ∧ (∀ err, (engineRemoveGroupingPolicy e rule).1 = true →
          save (engineRemoveGroupingPolicy e rule).2 = some err →
          m.RemoveGroupingPolicy save rule =
            (.error err, { m with enforcer := some (engineRemoveGroupingPolicy e rule).2 }))
      ∧ ((engineRemoveGroupingPolicy e rule).1 = false → ∀ save2 : SaveOracle,
          m.RemoveGroupingPolicy save2 rule =
            (.ok false, { m with enforcer := some (engineRemoveGroupingPolicy e rule).2 }))) := by
  refine ⟨⟨?_, ?_, ?_⟩, ⟨?_, ?_, ?_⟩, ⟨?_, ?_, ?_⟩, ⟨?_, ?_, ?_⟩⟩
  · intro hch hs
    simp [CasbinModule.AddPolicy, hinit, hch, hs]
  · intro err hch hs
    simp [CasbinModule.AddPolicy, hinit, hch, hs]
  · intro hch save2
    simp [CasbinModule.AddPolicy, hinit, hch]
  · intro hch hs
    simp [CasbinModule.RemovePolicy, hinit, hch, hs]
  · intro err hch hs
    simp [CasbinModule.RemovePolicy, hinit, hch, hs]
  · intro hch save2
    simp [CasbinModule.RemovePolicy, hinit, hch]
  · intro hch hs
    simp [CasbinModule.AddGroupingPolicy, hinit, hch, hs]
  · intro err hch hs
    simp [CasbinModule.AddGroupingPolicy, hinit, hch, hs]
  · intro hch save2
    simp [CasbinModule.AddGroupingPolicy, hinit, hch]
  · intro hch hs
    simp [CasbinModule.RemoveGroupingPolicy, hinit, hch, hs]
  · intro err hch hs
    simp [CasbinModule.RemoveGroupingPolicy, hinit, hch, hs]
  · intro hch save2
    simp [CasbinModule.RemoveGroupingPolicy, hinit, hch]

/-- C4 witness engine and module: one policy, one grouping, exact matcher. -/
def eC4 : EngineState :=
  ⟨exactMatcher, [["admin", "/api", "GET"]], [["alice", "admin"]]⟩

def mC4 : CasbinModule :=
  { name := "authz"
  , config := sampleConfig [["admin", "/api", "GET"]] [["alice", "admin"]]
  , enforcer := some eC4
  , stored := ⟨[["admin", "/api", "GET"]], [["alice", "admin"]]⟩ }

/-- A save oracle that always fails with a fixed error. -/
def saveFail : SaveOracle := fun _ => some "save failed"

/-- C4 witness: on the concrete module, adding a new rule with a working store
reports true and persists the enlarged full rule set; the same addition with a
failing store returns the persistence error; and removing an absent rule
reports false with the store untouched even under the failing oracle, all via
`C4_persist_iff_changed`. -/
theorem C4_persist_iff_changed_witness :
    ((mC4.AddPolicy saveOk ["editor", "/api", "POST"]).1 = .ok true
      ∧ ((mC4.AddPolicy saveOk ["editor", "/api", "POST"]).2).stored =
          ⟨[["admin", "/api", "GET"], ["editor", "/api", "POST"]], [["alice", "admin"]]⟩)
    ∧ (mC4.AddPolicy saveFail ["editor", "/api", "POST"]).1 = .error "save failed"
    ∧ ((mC4.RemovePolicy saveFail ["viewer", "/api", "GET"]).1 = .ok false
      ∧ ((mC4.RemovePolicy saveFail ["viewer", "/api", "GET"]).2).stored = mC4.stored) := by
  have hok := (C4_persist_iff_changed mC4 eC4 ["editor", "/api", "POST"] saveOk rfl).1.1 rfl rfl
  have herr := (C4_persist_iff_changed mC4 eC4 ["editor", "/api", "POST"] saveFail rfl).1.2.1
    "save failed" rfl rfl
  have hno := (C4_persist_iff_changed mC4 eC4 ["viewer", "/api", "GET"] saveFail rfl).2.1.2.2
    rfl saveFail
  refine ⟨⟨?_, ?_⟩, ?_, ?_, ?_⟩
  · rw [hok]
  · rw [hok]; rfl
  · rw [herr]
  · rw [hno]
  · rw [hno]

/-- C2 counterexample module: wildcard-action matcher with an existing policy
row ("a", "/x", "*") that also covers the query ("a", "/x", "GET"). -/
def mC2 : CasbinModule :=
  { name := "authz"
  , config := sampleConfig [["a", "/x", "*"]] []
  , enforcer := some ⟨wildcardMatcher, [["a", "/x", "*"]], []⟩
  , stored := ⟨[["a", "/x", "*"]], []⟩ }

/-- C2 counterexample: on `mC2`, adding the row ("a", "/x", "GET") succeeds and
the matching query is allowed; removing that same row also succeeds, yet the
same `Enforce` query still returns true — not false as the claim states —
because the pre-existing wildcard row ("a", "/x", "*") keeps matching. -/
theorem C2_counterexample_other_matching_row :
    (mC2.AddPolicy saveOk ["a", "/x", "GET"]).1 = .ok true
    ∧ ((mC2.AddPolicy saveOk ["a", "/x", "GET"]).2).Enforce "a" "/x" "GET" = .ok true
    ∧ (((mC2.AddPolicy saveOk ["a", "/x", "GET"]).2).RemovePolicy saveOk
        ["a", "/x", "GET"]).1 = .ok true
    ∧ ((((mC2.AddPolicy saveOk ["a", "/x", "GET"]).2).RemovePolicy saveOk
        ["a", "/x", "GET"]).2).Enforce "a" "/x" "GET" = .ok true :=
  ⟨rfl, rfl, rfl, rfl⟩

/-- C2 (amended): on an initialized module whose persistence succeeds, for a
policy row that satisfies the matcher for the query, `AddPolicy` succeeds and
the query is then allowed; and provided the row occurs at most once and no
OTHER policy row satisfies the matcher for that query, the subsequent
`RemovePolicy` succeeds and the same query is then denied. -/
theorem C2_roundtrip_unique_match (m : CasbinModule) (e : EngineState) (rule : Rule)
    (sub obj act : String) (save : SaveOracle)
    (hinit : m.enforcer = some e)
    (hsave : ∀ st, save st = none)
    (hmatch : e.matcher e.groupings sub obj act rule = true)
    (honce : e.policies.count rule ≤ 1)
    (hother : ∀ row ∈ e.policies, row ≠ rule →
      e.matcher e.groupings sub obj act row = false) :
    exceptIsOk (m.AddPolicy save rule).1 = true
    ∧ ((m.AddPolicy save rule).2).Enforce sub obj act = .ok true
    ∧ (((m.AddPolicy save rule).2).RemovePolicy save rule).1 = .ok true
    ∧ ((((m.AddPolicy save rule).2).RemovePolicy save rule).2).Enforce
        sub obj act = .ok false := by
  by_cases hc : rule ∈ e.policies
  · -- the rule was already present: the add is a no-error no-op
    have hcc : e.policies.contains rule = true := by simpa using hc
    have hadd : m.AddPolicy save rule = (.ok false, { m with enforcer := some e }) := by
      simp [CasbinModule.AddPolicy, hinit, engineAddPolicy, hc]
    have hcount1 : e.policies.count rule = 1 := by
      have hpos : 0 < e.policies.count rule := List.count_pos_iff.mpr hc
      omega
    have hnotmem : rule ∉ e.policies.erase rule := by
      have h0 : (e.policies.erase rule).count rule = 0 := by
        rw [List.count_erase_self, hcount1]
      exact List.count_eq_zero.mp h0
    have htrue : enforceEngine e sub obj act = true := by
      unfold enforceEngine
      rw [List.any_eq_true]
      exact ⟨rule, hc, hmatch⟩
    have hfalse : enforceEngine { e with policies := e.policies.erase rule }
        sub obj act = false := by
      unfold enforceEngine
      rw [List.any_eq_false]
      intro row hrow
      have hne : row ≠ rule := by rintro rfl; exact hnotmem hrow
      simp [hother row (List.mem_of_mem_erase hrow) hne]
    have hrem : CasbinModule.RemovePolicy save { m with enforcer := some e } rule =
        (.ok true, { m with enforcer := some { e with policies := e.policies.erase rule },
                            stored := fullRuleSet { e with policies := e.policies.erase rule } }) := by
      simp [CasbinModule.RemovePolicy, engineRemovePolicy, hc, hsave]
    refine ⟨?_, ?_, ?_, ?_⟩
    · rw [hadd]; rfl
    · rw [hadd]; simp [CasbinModule.Enforce, htrue]
    · rw [hadd, hrem]
    · rw [hadd, hrem]; simp [CasbinModule.Enforce, hfalse]
  · -- the rule was absent: the add appends it
    have hcc : e.policies.contains rule = false := by simpa using hc
    have hadd : m.AddPolicy save rule =
        (.ok true, { m with enforcer := some { e with policies := e.policies ++ [rule] },
                            stored := fullRuleSet { e with policies := e.policies ++ [rule] } }) := by
      simp [CasbinModule.AddPolicy, hinit, engineAddPolicy, hc, hsave]
    have htrue : enforceEngine { e with policies := e.policies ++ [rule] }
        sub obj act = true := by
      unfold enforceEngine
      rw [List.any_eq_true]
      exact ⟨rule, by simp, hmatch⟩
    have herase : (e.policies ++ [rule]).erase rule = e.policies := by
      rw [List.erase_append_right _ hc]
      simp
    have hc2 : rule ∈ e.policies ++ [rule] := by simp
    have hfalse : enforceEngine e sub obj act = false := by
      unfold enforceEngine
      rw [List.any_eq_false]
      intro row hrow
      have hne : row ≠ rule := by rintro rfl; exact hc hrow
      simp [hother row hrow hne]
    have hrem : CasbinModule.RemovePolicy save
        { m with enforcer := some { e with policies := e.policies ++ [rule] },
                 stored := fullRuleSet { e with policies := e.policies ++ [rule] } } rule =
        (.ok true, { m with enforcer := some e, stored := fullRuleSet e }) := by
      simp [CasbinModule.RemovePolicy, engineRemovePolicy, hc2, hsave, herase]
    refine ⟨?_, ?_, ?_, ?_⟩
    · rw [hadd]; rfl
    · rw [hadd]; simp [CasbinModule.Enforce, htrue]
    · rw [hadd, hrem]
    · rw [hadd, hrem]; simp [CasbinModule.Enforce, hfalse]

/-- C2 witness module: initialized, empty rule sets, exact matcher. -/
def mC2w : CasbinModule :=
  { name := "authz"
  , config := sampleConfig [] []
  , enforcer := some ⟨exactMatcher, [], []⟩
  , stored := ⟨[], []⟩ }

/-- C2 witness: on the concrete module `mC2w` the amended round-trip holds for
the rule ("u", "/p", "GET") and the matching query, via
`C2_roundtrip_unique_match`. -/
theorem C2_roundtrip_unique_match_witness :
    exceptIsOk (mC2w.AddPolicy saveOk ["u", "/p", "GET"]).1 = true
    ∧ ((mC2w.AddPolicy saveOk ["u", "/p", "GET"]).2).Enforce "u" "/p" "GET" = .ok true
    ∧ (((mC2w.AddPolicy saveOk ["u", "/p", "GET"]).2).RemovePolicy saveOk
        ["u", "/p", "GET"]).1 = .ok true
    ∧ ((((mC2w.AddPolicy saveOk ["u", "/p", "GET"]).2).RemovePolicy saveOk
        ["u", "/p", "GET"]).2).Enforce "u" "/p" "GET" = .ok false :=
  C2_roundtrip_unique_match mC2w ⟨exactMatcher, [], []⟩ ["u", "/p", "GET"]
    "u" "/p" "GET" saveOk rfl (fun _ => rfl) (by decide) (by decide) (by decide)

/-- Row of the fixed relational schema (src/unnamed/part_000 `casbinRule`):
the rule kind plus six positional value columns (the auto-increment id is
storage-managed and not part of the serialization). -/
structure casbinRule where
  ptype : String
  v0 : String
  v1 : String
  v2 : String
  v3 : String
  v4 : String
  v5 : String
deriving DecidableEq

/-- Conversion of a ptype and rule slice to a relational row
(src/unnamed/part_000 `lineToRule`): fields default to the empty string and
fields of the rule beyond the sixth are dropped. -/
def lineToRule (ptype : String) (rule : Rule) : casbinRule :=
  ⟨ptype, rule.getD 0 "", rule.getD 1 "", rule.getD 2 "",
    rule.getD 3 "", rule.getD 4 "", rule.getD 5 ""⟩

/-- Conversion of a relational row back to a casbin policy line
(src/unnamed/part_000 `ruleToLine`): the value columns are read in order and
reading stops at the first empty-string column. -/
def ruleToLine (r : casbinRule) : String :=
  String.intercalate ", "
    (r.ptype :: ([r.v0, r.v1, r.v2, r.v3, r.v4, r.v5].takeWhile (fun v => v != "")))

/-- Helper: reading one of the first six fields is unaffected by truncating
the rule to six fields. -/
theorem getD_take_six (l : Rule) (i : Nat) (h : i < 6) :
    (l.take 6).getD i "" = l.getD i "" := by
  simp [List.getD, List.getElem?_take, h]

/-- C10: the relational serialization round-trips a rule exactly when it has
at most six fields, all non-empty: (a) for every such rule, converting to a
row and back yields the original line `ptype, f0, f1, ...`; (b) `lineToRule`
silently drops every field beyond the sixth; (c) a rule with an empty field
followed by a non-empty field loses the tail ("p, a" instead of restoring
["a", "", "c"]); (d) a seven-field rule comes back with only six fields. -/
theorem C10_row_serialization_roundtrip :
    (∀ (p : String) (rule : Rule), rule.length ≤ 6 → (∀ f ∈ rule, f ≠ "") →
      ruleToLine (lineToRule p rule) = String.intercalate ", " (p :: rule))
    ∧ (∀ (p : String) (rule : Rule), lineToRule p rule = lineToRule p (rule.take 6))
    ∧ ruleToLine (lineToRule "p" ["a", "", "c"]) = "p, a"
    ∧ ruleToLine (lineToRule "p" ["a", "b", "c", "d", "e", "f", "g"])
        = "p, a, b, c, d, e, f" := by
  refine ⟨?_, ?_, by decide, by decide⟩
  · intro p rule hlen hne
    cases rule with
    | nil => rfl
    | cons a t =>
    have ha := bne_iff_ne.mpr (hne a (by simp))
    cases t with
    | nil => simp [ruleToLine, lineToRule, List.takeWhile, ha]
    | cons b t =>
    have hb := bne_iff_ne.mpr (hne b (by simp))
    cases t with
    | nil => simp [ruleToLine, lineToRule, List.takeWhile, ha, hb]
    | cons c t =>
    have hc := bne_iff_ne.mpr (hne c (by simp))
    cases t with
    | nil => simp [ruleToLine, lineToRule, List.takeWhile, ha, hb, hc]
    | cons d t =>
    have hd := bne_iff_ne.mpr (hne d (by simp))
    cases t with
    | nil => simp [ruleToLine, lineToRule, List.takeWhile, ha, hb, hc, hd]
    | cons e t =>
    have he := bne_iff_ne.mpr (hne e (by simp))
    cases t with
    | nil => simp [ruleToLine, lineToRule, List.takeWhile, ha, hb, hc, hd, he]
    | cons f t =>
    have hf := bne_iff_ne.mpr (hne f (by simp))
    cases t with
    | nil => simp [ruleToLine, lineToRule, List.takeWhile, ha, hb, hc, hd, he, hf]
    | cons g t =>
      simp only [List.length_cons] at hlen
      omega
  · intro p rule
    unfold lineToRule
    rw [getD_take_six rule 0 (by omega), getD_take_six rule 1 (by omega),
      getD_take_six rule 2 (by omega), getD_take_six rule 3 (by omega),
      getD_take_six rule 4 (by omega), getD_take_six rule 5 (by omega)]

/-- C10 witness: the round-trip part of `C10_row_serialization_roundtrip`
evaluated at the concrete three-field rule ("admin", "/api", "GET"). -/
theorem C10_row_serialization_roundtrip_witness :
    ruleToLine (lineToRule "p" ["admin", "/api", "GET"]) = "p, admin, /api, GET" := by
  rw [C10_row_serialization_roundtrip.1 "p" ["admin", "/api", "GET"]
    (by decide) (by decide)]
  decide

/-- A value held in a pipeline context map: a string, or some value of another
dynamic type (which the Go string type assertions reject). -/
inductive CtxVal where
  | str (s : String)
  | other
deriving DecidableEq

/-- A context map (trigger data, current context, or one step output map). -/
abbrev Ctx := List (String × CtxVal)

/-- The Go pattern `v, ok := ctx[key].(string); ok && v != ""` — the non-empty
string held at a key, if any. -/
def ctxStr (ctx : Ctx) (key : String) : Option String :=
  match ctx.lookup key with
  | some (.str v) => if v = "" then none else some v
  | _ => none

/-- Subject resolution (src/internal/step_authz_check.go `resolveSubject`):
search each prior step output map first, then the current context, then the
trigger data; the empty string signals a missing subject. -/
def resolveSubject (key : String) (stepOutputs : List (String × Ctx))
    (current triggerData : Ctx) : String :=
  match stepOutputs.findSome? (fun p => ctxStr p.2 key) with
  | some v => v
  | none =>
    match ctxStr current key with
    | some v => v
    | none =>
      match ctxStr triggerData key with
      | some v => v
      | none => ""

/-- Overwrite-or-append of one binding in a context map (Go map assignment). -/
def ctxSet (ctx : Ctx) (kv : String × CtxVal) : Ctx :=
  (ctx.filter (fun p => p.1 != kv.1)) ++ [kv]

/-- Template-data merge (src/internal/step_authz_check.go `buildTemplateData`):
later sources overwrite earlier ones, trigger data < step outputs < current. -/
def buildTemplateData (triggerData : Ctx) (stepOutputs : List (String × Ctx))
    (current : Ctx) : Ctx :=
  let d1 := triggerData.foldl ctxSet []
  let d2 := stepOutputs.foldl (fun acc p => p.2.foldl ctxSet acc) d1
  current.foldl ctxSet d2

/-- A value of a step output map. -/
inductive OutVal where
  | str (s : String)
  | nat (n : Nat)
  | bool (b : Bool)
  | strMap (kvs : List (String × String))
  | map (kvs : List (String × OutVal))

/-- Result of one pipeline step: the stop-pipeline flag and the output map. -/
structure StepResult where
  stopPipeline : Bool
  output : List (String × OutVal)

/-- Escaping of one character as the Go fmt %q verb does for the printable
ASCII range used by subjects, objects and actions here. -/
def goQuoteChar (c : Char) : String :=
  if c = '"' then "\\\""
  else if c = '\\' then "\\\\"
  else if c = '\n' then "\\n"
  else if c = '\t' then "\\t"
  else if c = '\r' then "\\r"
  else String.singleton c

/-- Go fmt %q: the quoted, escaped form of a string. -/
def goQuote (s : String) : String :=
  "\"" ++ String.join (s.data.map goQuoteChar) ++ "\""

/-- Deny outcome (src/internal/step_authz_check.go `forbiddenResult`): stops
the pipeline, carries the HTTP 403 status, a JSON error body and the
allowed=false flag. -/
def forbiddenResult (msg : String) : StepResult :=
  { stopPipeline := true
  , output := [("response_status", .nat 403),
               ("response_body", .str ("\x7b\"error\":" ++ goQuote msg ++ "\x7d")),
               ("response_headers", .strMap [("Content-Type", "application/json")]),
               ("authz_allowed", .bool false)] }

/-- Allow outcome of the Check step: non-terminal, exposes the resolved
subject, object, action and the allowed flag. -/
def allowResult (subject object action : String) : StepResult :=
  { stopPipeline := false
  , output := [("authz_subject", .str subject),
               ("authz_object", .str object),
               ("authz_action", .str action),
               ("authz_allowed", .bool true)] }

/-- The Enforce behaviour a registry hands to a step for one module name. -/
abbrev EnforceFn := String → String → String → Except String Bool

/-- The module registry consulted by every step at execution time. -/
abbrev Registry := String → Option EnforceFn

/-- The Check step (src/internal/step_authz_check.go `authzCheckStep`); a
compiled template is an abstract function from template data to the rendered
string or a rendering error (nil template = static string).  The audit flag
is carried for the audited execution variant below. -/
structure authzCheckStep where
  name : String
  moduleName : String
  subjectKey : String
  object : String
  action : String
  objectTmpl : Option (Ctx → Except String String)
  actionTmpl : Option (Ctx → Except String String)
  audit : Bool

/-- Static-or-template resolution (src/internal/step_authz_check.go
`resolve`). -/
def resolve (staticVal : String) (tmpl : Option (Ctx → Except String String))
    (data : Ctx) : Except String String :=
  match tmpl with
  | none => .ok staticVal
  | some f => f data

/-- Execute of the Check step (src/internal/step_authz_check.go
`authzCheckStep.Execute`): resolve the subject (missing subject is an
immediate deny), resolve object and action, look up the module, enforce, and
translate the decision into a pipeline outcome.  A denial is an ok result, not
an error. -/
def authzCheckStep.Execute (registry : Registry) (s : authzCheckStep)
    (triggerData : Ctx) (stepOutputs : List (String × Ctx)) (current : Ctx) :
    Except String StepResult :=
  let subject := resolveSubject s.subjectKey stepOutputs current triggerData
  if subject = "" then
    .ok (forbiddenResult "missing authentication subject; ensure step.auth_required runs first")
  else
    let tmplData := buildTemplateData triggerData stepOutputs current
    match resolve s.object s.objectTmpl tmplData with
    | .error e => .error ("step.authz_check " ++ s.name ++ ": resolve object: " ++ e)
    | .ok object =>
      match resolve s.action s.actionTmpl tmplData with
      | .error e => .error ("step.authz_check " ++ s.name ++ ": resolve action: " ++ e)
      | .ok action =>
        match registry s.moduleName with
        | none => .error ("step.authz_check " ++ s.name ++ ": authz module "
            ++ s.moduleName ++ " not found; check module name in config")
        | some enf =>
          match enf subject object action with
          | .error e => .error ("step.authz_check " ++ s.name ++ ": enforce: " ++ e)
          | .ok allowed =>
            if !allowed then
              .ok (forbiddenResult ("forbidden: " ++ subject ++ " is not permitted to "
                ++ action ++ " " ++ object))
            else
              .ok (allowResult subject object action)

/-- C5: when the subject key holds no non-empty string in any prior step
output, nor in the current context, nor in the trigger data, the Check step
returns the missing-subject deny outcome with the pipeline-stop signal and no
error — and since the registry is arbitrary here, the enforcement engine is
never consulted. -/
theorem C5_missing_subject_is_immediate_deny (registry : Registry)
    (s : authzCheckStep) (triggerData current : Ctx)
    (stepOutputs : List (String × Ctx))
    (hso : ∀ p ∈ stepOutputs, ctxStr p.2 s.subjectKey = none)
    (hcur : ctxStr current s.subjectKey = none)
    (htrg : ctxStr triggerData s.subjectKey = none) :
    s.Execute registry triggerData stepOutputs current =
      .ok (forbiddenResult "missing authentication subject; ensure step.auth_required runs first")
    ∧ (forbiddenResult "missing authentication subject; ensure step.auth_required runs first").stopPipeline = true
    ∧ (forbiddenResult "missing authentication subject; ensure step.auth_required runs first").output.lookup
        "authz_allowed" = some (.bool false) := by
  have hsub : resolveSubject s.subjectKey stepOutputs current triggerData = "" := by
    unfold resolveSubject
    rw [List.findSome?_eq_none_iff.mpr hso, hcur, htrg]
  refine ⟨?_, rfl, rfl⟩
  unfold authzCheckStep.Execute
  rw [hsub]
  rfl

/-- C5 witness: a concrete Check step and concrete contexts in which the
subject key "auth_user_id" is absent from the step outputs, holds a non-string
in the current context and an empty string in the trigger data; the step
denies immediately under a registry that knows no module at all, via
`C5_missing_subject_is_immediate_deny`. -/
theorem C5_missing_subject_is_immediate_deny_witness :
    authzCheckStep.Execute (fun _ => none)
      ⟨"check", "authz", "auth_user_id", "/api/posts", "GET", none, none, false⟩
      [("auth_user_id", .str "")]
      [("step0", [("other_key", .str "alice")])]
      [("auth_user_id", .other)] =
      .ok (forbiddenResult "missing authentication subject; ensure step.auth_required runs first") :=
  (C5_missing_subject_is_immediate_deny (fun _ => none)
    ⟨"check", "authz", "auth_user_id", "/api/posts", "GET", none, none, false⟩
    [("auth_user_id", .str "")] [("auth_user_id", .other)]
    [("step0", [("other_key", .str "alice")])]
    (by decide) (by decide) (by decide)).1

/-- C6: whenever the module denies (Enforce returns ok false), the Check step
returns — without a Go error — the forbidden outcome: pipeline stop flag set,
HTTP 403 status, allowed=false, and a JSON body naming the forbidden subject,
action and object. -/
theorem C6_deny_yields_403_stop_no_error (registry : Registry) (s : authzCheckStep)
    (triggerData current : Ctx) (stepOutputs : List (String × Ctx))
    (subject object action : String) (enf : EnforceFn)
    (hsub : resolveSubject s.subjectKey stepOutputs current triggerData = subject)
    (hne : subject ≠ "")
    (hobj : resolve s.object s.objectTmpl
      (buildTemplateData triggerData stepOutputs current) = .ok object)
    (hact : resolve s.action s.actionTmpl
      (buildTemplateData triggerData stepOutputs current) = .ok action)
    (hreg : registry s.moduleName = some enf)
    (henf : enf subject object action = .ok false) :
    s.Execute registry triggerData stepOutputs current =
      .ok (forbiddenResult ("forbidden: " ++ subject ++ " is not permitted to "
        ++ action ++ " " ++ object))
    ∧ (forbiddenResult ("forbidden: " ++ subject ++ " is not permitted to "
        ++ action ++ " " ++ object)).stopPipeline = true
    ∧ (forbiddenResult ("forbidden: " ++ subject ++ " is not permitted to "
        ++ action ++ " " ++ object)).output.lookup "response_status" = some (.nat 403)
    ∧ (forbiddenResult ("forbidden: " ++ subject ++ " is not permitted to "
        ++ action ++ " " ++ object)).output.lookup "authz_allowed" = some (.bool false)
    ∧ (forbiddenResult ("forbidden: " ++ subject ++ " is not permitted to "
        ++ action ++ " " ++ object)).output.lookup "response_body" =
        some (.str ("\x7b\"error\":" ++ goQuote ("forbidden: " ++ subject
          ++ " is not permitted to " ++ action ++ " " ++ object) ++ "\x7d")) := by
  refine ⟨?_, rfl, rfl, rfl, rfl⟩
  unfold authzCheckStep.Execute
  rw [hsub, if_neg hne]
  simp only [hobj, hact, hreg, henf]
  rfl

/-- C6 witness: a concrete step, contexts carrying subject "carol", and a
module that denies; the step produces the concrete 403 outcome via
`C6_deny_yields_403_stop_no_error`. -/
theorem C6_deny_yields_403_stop_no_error_witness :
    authzCheckStep.Execute (fun _ => some (fun _ _ _ => .ok false))
      ⟨"check", "authz", "auth_user_id", "/api/posts", "DELETE", none, none, false⟩
      [] [] [("auth_user_id", .str "carol")] =
      .ok (forbiddenResult "forbidden: carol is not permitted to DELETE /api/posts") := by
  have h := (C6_deny_yields_403_stop_no_error (fun _ => some (fun _ _ _ => .ok false))
    ⟨"check", "authz", "auth_user_id", "/api/posts", "DELETE", none, none, false⟩
    [] [("auth_user_id", .str "carol")] [] "carol" "/api/posts" "DELETE"
    (fun _ _ _ => .ok false) rfl (by decide) rfl rfl rfl rfl).1
  exact h

/-- Audit record emitted by the audited Check step: decision type, subject,
object, action, allowed flag, module name, timestamp. -/
def auditEvent (subject object action : String) (allowed : Bool)
    (moduleName timestamp : String) : OutVal :=
  .map [("type", .str "authz_decision"),
        ("subject", .str subject),
        ("object", .str object),
        ("action", .str action),
        ("allowed", .bool allowed),
        ("module", .str moduleName),
        ("timestamp", .str timestamp)]

/-- Attach an audit record to a step result under the "audit_event" key. -/
def attachAudit (r : StepResult) (ev : OutVal) : StepResult :=
  { r with output := r.output ++ [("audit_event", ev)] }

/-- Modelled from the spec: the audit-emitting variant of the Check step
Execute.  The implementation carrying the audit flag is missing from src (only
its tests, in src/internal/step_authz_check_test.go, reference it); per the
spec, when the audit flag is set the step additionally emits a structured
audit record (decision type, subject, object, action, allowed flag, module
name, ISO-8601 timestamp) regardless of allow/deny outcome.  The timestamp is
passed in as the rendered ISO-8601 (RFC 3339) clock reading. -/
def authzCheckStep.ExecuteAudited (registry : Registry) (now : String)
    (s : authzCheckStep) (triggerData : Ctx) (stepOutputs : List (String × Ctx))
    (current : Ctx) : Except String StepResult :=
  let subject := resolveSubject s.subjectKey stepOutputs current triggerData
  if subject = "" then
    .ok (forbiddenResult "missing authentication subject; ensure step.auth_required runs first")
  else
    let tmplData := buildTemplateData triggerData stepOutputs current
    match resolve s.object s.objectTmpl tmplData with
    | .error e => .error ("step.authz_check " ++ s.name ++ ": resolve object: " ++ e)
    | .ok object =>
      match resolve s.action s.actionTmpl tmplData with
      | .error e => .error ("step.authz_check " ++ s.name ++ ": resolve action: " ++ e)
      | .ok action =>
        match registry s.moduleName with
        | none => .error ("step.authz_check " ++ s.name ++ ": authz module "
            ++ s.moduleName ++ " not found; check module name in config")
        | some enf =>
          match enf subject object action with
          | .error e => .error ("step.authz_check " ++ s.name ++ ": enforce: " ++ e)
          | .ok allowed =>
            let base :=
              if !allowed then
                forbiddenResult ("forbidden: " ++ subject ++ " is not permitted to "
                  ++ action ++ " " ++ object)
              else allowResult subject object action
            .ok (if s.audit then
                attachAudit base (auditEvent subject object action allowed s.moduleName now)
              else base)

/-- C7: with the audit flag set, every execution that reaches a decision —
whichever way the decision goes — additionally emits the structured audit
record with decision type, subject, object, action, allowed flag, module name
and the timestamp, alongside the usual allow or deny outcome. -/
theorem C7_audit_flag_emits_audit_record (registry : Registry) (now : String)
    (s : authzCheckStep) (triggerData current : Ctx)
    (stepOutputs : List (String × Ctx))
    (subject object action : String) (enf : EnforceFn) (allowed : Bool)
    (haud : s.audit = true)
    (hsub : resolveSubject s.subjectKey stepOutputs current triggerData = subject)
    (hne : subject ≠ "")
    (hobj : resolve s.object s.objectTmpl
      (buildTemplateData triggerData stepOutputs current) = .ok object)
    (hact : resolve s.action s.actionTmpl
      (buildTemplateData triggerData stepOutputs current) = .ok action)
    (hreg : registry s.moduleName = some enf)
    (henf : enf subject object action = .ok allowed) :
    s.ExecuteAudited registry now triggerData stepOutputs current =
      .ok (attachAudit
        (if allowed then allowResult subject object action
          else forbiddenResult ("forbidden: " ++ subject ++ " is not permitted to "
            ++ action ++ " " ++ object))
        (auditEvent subject object action allowed s.moduleName now))
    ∧ (attachAudit
        (if allowed then allowResult subject object action
          else forbiddenResult ("forbidden: " ++ subject ++ " is not permitted to "
            ++ action ++ " " ++ object))
        (auditEvent subject object action allowed s.moduleName now)).output.lookup
        "audit_event" = some (auditEvent subject object action allowed s.moduleName now) := by
  constructor
  · unfold authzCheckStep.ExecuteAudited
    rw [hsub, if_neg hne]
    simp only [hobj, hact, hreg, henf, haud]
    cases allowed <;> rfl
  · cases allowed <;> rfl

/-- C7 witness: a concrete audited step with an allowing module emits the
audit record for subject "alice" with a concrete timestamp, via
`C7_audit_flag_emits_audit_record`. -/
theorem C7_audit_flag_emits_audit_record_witness :
    authzCheckStep.ExecuteAudited (fun _ => some (fun _ _ _ => .ok true))
      "2025-01-01T00:00:00Z"
      ⟨"check", "authz", "auth_user_id", "/api/posts", "DELETE", none, none, true⟩
      [] [] [("auth_user_id", .str "alice")] =
      .ok (attachAudit (allowResult "alice" "/api/posts" "DELETE")
        (auditEvent "alice" "/api/posts" "DELETE" true "authz" "2025-01-01T00:00:00Z")) := by
  have h := (C7_audit_flag_emits_audit_record (fun _ => some (fun _ _ _ => .ok true))
    "2025-01-01T00:00:00Z"
    ⟨"check", "authz", "auth_user_id", "/api/posts", "DELETE", none, none, true⟩
    [] [("auth_user_id", .str "alice")] [] "alice" "/api/posts" "DELETE"
    (fun _ _ _ => .ok true) true rfl rfl (by decide) rfl rfl rfl rfl).1
  simpa using h

/-- A dynamically typed configuration value (Go `any` in a config map). -/
inductive CVal where
  | str (s : String)
  | list (xs : List CVal)
  | boolv (b : Bool)
  | other

/-- A raw configuration map handed to a step constructor. -/
abbrev Config := List (String × CVal)

/-- The Go pattern `v, ok := config[key].(string)`: the string held at a key,
if the key is present and holds a string. -/
def lookupStr (config : Config) (key : String) : Option String :=
  match config.lookup key with
  | some (.str v) => some v
  | _ => none

/-- Conversion of a list of dynamic values to strings; fails on the first
non-string element. -/
def strsOfList : List CVal → Except String (List String)
  | [] => .ok []
  | .str s :: rest => (strsOfList rest).map (s :: ·)
  | _ :: _ => .error "element is not a string"

/-- toStringSlice (src/unnamed/part_003): a dynamic value as a string slice. -/
def cvalToStrings : CVal → Except String (List String)
  | .list xs => strsOfList xs
  | _ => .error "expected list of strings"

/-- The assignments loop of `newAuthzRoleAssignStep` (src/unnamed/part_002):
each row must convert to strings and have at least two fields. -/
def parseAssignments : List CVal → Except String (List (List String))
  | [] => .ok []
  | a :: rest =>
    match cvalToStrings a with
    | .error e => .error e
    | .ok row =>
      if row.length < 2 then .error "expected [user, role]"
      else (parseAssignments rest).map (row :: ·)

/-- The Role Assign step after construction (src/unnamed/part_002
`authzRoleAssignStep`); template compilation is elided because an unparsable
templated element falls back to a literal and never fails construction. -/
structure authzRoleAssignStep where
  name : String
  moduleName : String
  action : String
  assignments : List (List String)

/-- Constructor of the Role Assign step (src/unnamed/part_002
`newAuthzRoleAssignStep`): a non-empty action string outside add/remove is a
construction error; a missing, non-string, or empty action keeps the default
"add"; assignments must be a non-empty list of rows of at least two string
fields. -/
def newAuthzRoleAssignStep (name : String) (config : Config) :
    Except String authzRoleAssignStep :=
  let moduleName :=
    match lookupStr config "module" with
    | some v => if v = "" then "authz" else v
    | none => "authz"
  let actionRes : Except String String :=
    match lookupStr config "action" with
    | some v =>
      if v = "" then .ok "add"
      else if v = "add" ∨ v = "remove" then .ok v
      else .error ("step.authz_role_assign " ++ name
        ++ ": action must be add or remove, got " ++ v)
    | none => .ok "add"
  match actionRes with
  | .error e => .error e
  | .ok action =>
    match config.lookup "assignments" with
    | some (.list rows) =>
      if rows.isEmpty then
        .error ("step.authz_role_assign " ++ name ++ ": config.assignments is required")
      else
        match parseAssignments rows with
        | .error e => .error ("step.authz_role_assign " ++ name ++ ": " ++ e)
        | .ok assignments => .ok ⟨name, moduleName, action, assignments⟩
    | _ => .error ("step.authz_role_assign " ++ name ++ ": config.assignments is required")

/-- Helper: a row list containing a string row of fewer than two fields makes
the assignments loop fail. -/
theorem parseAssignments_short_row_fails (rows : List CVal)
    (h : ∃ c ∈ rows, ∃ l, cvalToStrings c = .ok l ∧ l.length < 2) :
    exceptIsOk (parseAssignments rows) = false := by
  induction rows with
  | nil =>
    rcases h with ⟨c, hc, _⟩
    cases hc
  | cons a rest ih =>
    rcases h with ⟨c, hc, l, hok, hlen⟩
    rcases List.mem_cons.mp hc with rfl | hmem
    · unfold parseAssignments
      rw [hok]
      dsimp only
      rw [if_pos hlen]
      rfl
    · unfold parseAssignments
      cases hca : cvalToStrings a with
      | error e => rfl
      | ok row =>
        dsimp only
        by_cases hrl : row.length < 2
        · rw [if_pos hrl]; rfl
        · rw [if_neg hrl]
          have hrec := ih ⟨c, hmem, l, hok, hlen⟩
          cases hpr : parseAssignments rest with
          | error e => rfl
          | ok v =>
            rw [hpr] at hrec
            exact absurd hrec (by simp [exceptIsOk])

/-- C8 counterexample configuration: an explicitly configured empty-string
action together with valid assignments. -/
def cfgC8 : Config :=
  [("action", .str ""), ("assignments", .list [.list [.str "dave", .str "admin"]])]

/-- C8 counterexample: the configured action value "" is outside {add, remove},
yet construction succeeds — the code treats an empty (or non-string) action as
unset and falls back to the default "add", so the claim as stated is false. -/
theorem C8_counterexample_empty_action_accepted :
    lookupStr cfgC8 "action" = some ""
    ∧ ¬("" = "add" ∨ "" = "remove")
    ∧ exceptIsOk (newAuthzRoleAssignStep "assign" cfgC8) = true :=
  ⟨rfl, by decide, rfl⟩

/-- C8 (amended): construction of the Role Assign step fails — at construction
time — whenever (a) the configured action is a non-empty string outside
{add, remove}, or (b) some configured assignment row converts to fewer than
two string fields; and (c) every configuration whose assignments are a
non-empty list passing the row checks, and whose action value (when present
as a string) is empty, "add" or "remove", constructs successfully with
respect to these two validations.  An empty or non-string action value is
treated as unset and defaults to add. -/
theorem C8_construction_validation :
    (∀ (name : String) (config : Config) (v : String),
      lookupStr config "action" = some v → v ≠ "" → v ≠ "add" → v ≠ "remove" →
      exceptIsOk (newAuthzRoleAssignStep name config) = false)
    ∧ (∀ (name : String) (config : Config) (rows : List CVal),
      config.lookup "assignments" = some (.list rows) →
      (∃ c ∈ rows, ∃ l, cvalToStrings c = .ok l ∧ l.length < 2) →
      exceptIsOk (newAuthzRoleAssignStep name config) = false)
    ∧ (∀ (name : String) (config : Config) (rows : List CVal)
        (rows' : List (List String)),
      config.lookup "assignments" = some (.list rows) → rows ≠ [] →
      parseAssignments rows = .ok rows' →
      (∀ v, lookupStr config "action" = some v → v = "" ∨ v = "add" ∨ v = "remove") →
      exceptIsOk (newAuthzRoleAssignStep name config) = true) := by
  refine ⟨?_, ?_, ?_⟩
  · intro name config v ha hne h1 h2
    unfold newAuthzRoleAssignStep
    simp only [ha]
    rw [if_neg hne, if_neg (by simp [h1, h2])]
    rfl
  · intro name config rows hlk hshort
    have hfail := parseAssignments_short_row_fails rows hshort
    unfold newAuthzRoleAssignStep
    cases hla : lookupStr config "action" with
    | none =>
      simp only [hla, hlk]
      cases hre : rows.isEmpty
      · simp only [Bool.false_eq_true, if_false]
        cases hpr : parseAssignments rows with
        | error e => rfl
        | ok v => rw [hpr] at hfail; exact absurd hfail (by simp [exceptIsOk])
      · rfl
    | some v =>
      by_cases hv0 : v = ""
      · subst hv0
        simp only [hla, hlk, if_pos rfl]
        cases hre : rows.isEmpty
        · simp only [Bool.false_eq_true, if_false]
          cases hpr : parseAssignments rows with
          | error e => rfl
          | ok w => rw [hpr] at hfail; exact absurd hfail (by simp [exceptIsOk])
        · rfl
      · by_cases hv1 : v = "add" ∨ v = "remove"
        · simp only [hla, hlk, if_neg hv0, if_pos hv1]
          cases hre : rows.isEmpty
          · simp only [Bool.false_eq_true, if_false]
            cases hpr : parseAssignments rows with
            | error e => rfl
            | ok w => rw [hpr] at hfail; exact absurd hfail (by simp [exceptIsOk])
          · rfl
        · simp only [hla, if_neg hv0, if_neg hv1]
          rfl
  · intro name config rows rows' hlk hne hpa hact
    have hre : rows.isEmpty = false := by
      cases rows
      · exact absurd rfl hne
      · rfl
    unfold newAuthzRoleAssignStep
    cases hla : lookupStr config "action" with
    | none =>
      simp only [hla, hlk, hre, Bool.false_eq_true, if_false, hpa]
      rfl
    | some v =>
      rcases hact v hla with rfl | rfl | rfl
      · simp only [hla, hlk, if_pos rfl, hre, Bool.false_eq_true, if_false, hpa]
        rfl
      · simp only [hla, hlk, hre, Bool.false_eq_true, if_false, hpa]
        rw [if_neg (by decide), if_pos (by decide)]
        rfl
      · simp only [hla, hlk, hre, Bool.false_eq_true, if_false, hpa]
        rw [if_neg (by decide), if_pos (by decide)]
        rfl

/-- C8 witness: concrete configurations exercising all three parts of
`C8_construction_validation`: action "grant" is rejected, a one-field
assignment row is rejected, and a well-formed configuration constructs. -/
theorem C8_construction_validation_witness :
    exceptIsOk (newAuthzRoleAssignStep "bad-action"
      [("action", .str "grant"),
       ("assignments", .list [.list [.str "u", .str "r"]])]) = false
    ∧ exceptIsOk (newAuthzRoleAssignStep "short-assign"
      [("action", .str "add"), ("assignments", .list [.list [.str "only-one"]])]) = false
    ∧ exceptIsOk (newAuthzRoleAssignStep "assign-add"
      [("action", .str "add"),
       ("assignments", .list [.list [.str "dave", .str "admin"]])]) = true :=
  ⟨C8_construction_validation.1 "bad-action"
    [("action", .str "grant"), ("assignments", .list [.list [.str "u", .str "r"]])]
    "grant" rfl (by decide) (by decide) (by decide),
   C8_construction_validation.2.1 "short-assign"
    [("action", .str "add"), ("assignments", .list [.list [.str "only-one"]])]
    [.list [.str "only-one"]] rfl
    ⟨.list [.str "only-one"], by simp, ["only-one"], rfl, by decide⟩,
   C8_construction_validation.2.2 "assign-add"
    [("action", .str "add"), ("assignments", .list [.list [.str "dave", .str "admin"]])]
    [.list [.str "dave", .str "admin"]] [["dave", "admin"]] rfl (by simp) rfl
    (fun v hv => by
      simp only [lookupStr] at hv
      right; left
      cases hv
      rfl)⟩
